import Mathlib

/-!
Verification of the react-ecommerce-admin repository against its
natural-language specification.

The repository is a Vite + React scaffold.  Two modules exist as concrete
source and are embedded directly:
  * src/config/env.ts       (environment validation at module init)
  * src/lib/query-client.ts (shared React Query client defaults)

The session manager (getAccessToken / setSession / clearSession /
ensureFreshToken / login and the 401 interceptor) is specified in the
design document but its implementation is not present under src/; those
definitions are modelled from the spec, as marked in their doc comments.
-/

namespace EcommerceAdmin

/-! ### Environment config — embedding of src/config/env.ts -/

/-- The raw environment (import.meta.env) as seen by the env module:
the VITE_API_URL variable may be absent. -/
structure RawEnv where
  VITE_API_URL : Option String
deriving Repr, DecidableEq

/-- Embedding of src/config/env.ts: `envSchema.safeParse(import.meta.env)`
followed by `throw new Error("Invalid environment variables")` on failure,
else `export const env = parsed.data`.  The zod `z.url()` validity test is
external library code and is abstracted as the parameter `validUrl`; an
absent variable always fails the schema. `Except.error msg` models the
thrown error (so no exported env value is produced), `Except.ok s` models
the exported `env` with `env.VITE_API_URL = s`. -/
def parseEnv (validUrl : String → Bool) (e : RawEnv) : Except String String :=
  match e.VITE_API_URL with
  | none => Except.error "Invalid environment variables"
  | some s =>
    if validUrl s then Except.ok s
    else Except.error "Invalid environment variables"

/-! ### Query client — embedding of src/lib/query-client.ts -/

/-- The default query options carried by the shared QueryClient. -/
structure QueryDefaults where
  staleTime : Nat
  gcTime : Nat
  retry : Nat
  refetchOnWindowFocus : Bool
  refetchOnReconnect : Bool
deriving Repr, DecidableEq

/-- Embedding of src/lib/query-client.ts: the literal defaultOptions
passed to the QueryClient constructor. -/
def queryClientDefaults : QueryDefaults :=
  { staleTime := 30000
    gcTime := 5 * 60 * 1000
    retry := 2
    refetchOnWindowFocus := true
    refetchOnReconnect := true }

/-- React Query semantics of the `retry` option: a persistently failing
query is attempted once and then retried `retry` more times, so the number
of retries equals the `retry` value. -/
def retriesOfFailingQuery (d : QueryDefaults) : Nat := d.retry

/-! ### Session manager data model -/

/-- Modelled from the spec: the user record { id, role } held in the
session. -/
structure SessionUser where
  id : String
  role : String
deriving Repr, DecidableEq

/-- Modelled from the spec: Session = { accessToken | absent,
refreshToken | absent, user | absent }, held only in volatile memory. -/
structure Session where
  accessToken : Option String
  refreshToken : Option String
  user : Option SessionUser
deriving Repr, DecidableEq

/-- Modelled from the spec: the cleared (empty) session. -/
def emptySession : Session := ⟨none, none, none⟩

/-- Identifier of a caller of ensureFreshToken. -/
abbrev CallerId := Nat

/-- Modelled from the spec: manager state = current Session plus the
RefreshState: no operation pending (`none`), or a pending operation with
the ordered list of waiters (leader first) to notify on completion. -/
structure ManagerState where
  session : Session
  pending : Option (List CallerId)
deriving Repr, DecidableEq

/-- Modelled from the spec: the session is created empty at process start
with no refresh pending. -/
def initState : ManagerState := ⟨emptySession, none⟩

/-- Modelled from the spec: getAccessToken returns the current access
token or absent, with no side effect (the returned state is the input
state; as a total pure function it cannot block or suspend). -/
def getAccessToken (st : ManagerState) : Option String × ManagerState :=
  (st.session.accessToken, st)

/-- Modelled from the spec: the derived isAuthenticated boolean exposed
for route guards. -/
def isAuthenticated (st : ManagerState) : Bool :=
  st.session.accessToken.isSome

/-- Modelled from the spec: setSession replaces the session atomically
with the three given fields. -/
def setSession (st : ManagerState) (a r : String) (u : SessionUser) : ManagerState :=
  { st with session := ⟨some a, some r, some u⟩ }

/-- Modelled from the spec: clearSession removes all three session
fields. -/
def clearSession (st : ManagerState) : ManagerState :=
  { st with session := emptySession }

/-! ### Refresh coordination (ensureFreshToken) event model -/

/-- Modelled from the spec: errors of the network refresh call — refresh
token invalid/expired, or a network failure (a timeout is surfaced as a
failure outcome). -/
inductive RefreshError
  | expiredRefreshToken
  | networkFailure
deriving Repr, DecidableEq

/-- Modelled from the spec: the resolution of the single outstanding
network refresh call. -/
inductive RefreshOutcome
  | success (newAccess newRefresh : String) (u : SessionUser)
  | failure (e : RefreshError)
deriving Repr, DecidableEq

/-- Modelled from the spec: the outcome a caller of ensureFreshToken
resolves with. -/
inductive EnsureResult
  | ok (token : String)
  | err (e : RefreshError)
deriving Repr, DecidableEq

/-- The EnsureResult every waiter of a round resolving with outcome `o`
receives. -/
def outcomeResult : RefreshOutcome → EnsureResult
  | .success a _ _ => .ok a
  | .failure e => .err e

/-- Modelled from the spec: events of the single-threaded cooperative
(event-loop) scheduling model — a caller invoking ensureFreshToken, or
the pending network refresh resolving. -/
inductive Event
  | callEnsure (c : CallerId)
  | resolve (o : RefreshOutcome)
deriving Repr, DecidableEq

/-- Observable history of a run: the manager state, the total number of
network refresh calls issued so far, and the callers resolved so far with
their outcomes, in resolution order. -/
structure World where
  st : ManagerState
  networkCalls : Nat
  resolved : List (CallerId × EnsureResult)
deriving Repr, DecidableEq

/-- Modelled from the spec: one event-loop step of ensureFreshToken
coordination.  A caller arriving with no refresh pending becomes the
leader: it installs the pending marker (registering itself as first
waiter) and issues the network refresh exactly once.  A caller arriving
while a refresh is pending becomes a follower: it registers interest and
suspends without issuing a network call.  When the pending refresh
resolves, on success the session is updated via setSession and every
waiter resolves with the new access token; on failure the session is
cleared via clearSession and every waiter resolves with the same failure;
either way the pending marker is then cleared. -/
def step (w : World) : Event → World
  | .callEnsure c =>
    match w.st.pending with
    | none =>
      { w with
        st := { w.st with pending := some [c] }
        networkCalls := w.networkCalls + 1 }
    | some ws =>
      { w with st := { w.st with pending := some (ws ++ [c]) } }
  | .resolve o =>
    match w.st.pending with
    | none => w
    | some ws =>
      match o with
      | .success a r u =>
        { st := setSession { w.st with pending := none } a r u
          networkCalls := w.networkCalls
          resolved := w.resolved ++ ws.map (fun c => (c, EnsureResult.ok a)) }
      | .failure e =>
        { st := clearSession { w.st with pending := none }
          networkCalls := w.networkCalls
          resolved := w.resolved ++ ws.map (fun c => (c, EnsureResult.err e)) }

/-- Run the event-loop model over a list of events. -/
def run (w : World) (es : List Event) : World := es.foldl step w

/-- The event list of one refresh round: the callers arrive (in order)
while it is in progress, then the single network refresh resolves. -/
def roundEvents (cs : List CallerId) (o : RefreshOutcome) : List Event :=
  cs.map Event.callEnsure ++ [Event.resolve o]

/-! ### Login and role check -/

/-- Modelled from the spec: errors surfaced by the login flow. -/
inductive AuthError
  | invalidCredentials
  | insufficientRole
deriving Repr, DecidableEq

/-- Modelled from the spec: the administrative role required of the
logged-in user. -/
def ADMIN_ROLE : String := "ADMIN"

/-- Modelled from the spec: the backend response to a login network
call — credentials rejected, or tokens plus the user record granted. -/
inductive LoginResponse
  | rejected
  | granted (a r : String) (u : SessionUser)
deriving Repr, DecidableEq

/-- Modelled from the spec: login.  Rejected credentials surface
InvalidCredentials without touching the stored session.  On granted
credentials the manager verifies the returned user role is the
administrative role; if not, it discards the returned session and
surfaces InsufficientRole rather than completing login, leaving the
stored session untouched; otherwise it stores the session atomically via
setSession and resolves with the access token. -/
def login (st : ManagerState) (resp : LoginResponse) :
    Except AuthError String × ManagerState :=
  match resp with
  | .rejected => (Except.error AuthError.invalidCredentials, st)
  | .granted a r u =>
    if u.role = ADMIN_ROLE then (Except.ok a, setSession st a r u)
    else (Except.error AuthError.insufficientRole, st)

/-! ### Outbound request interceptor -/

/-- Modelled from the spec: backend responses to an outbound request. -/
inductive HttpResponse
  | ok (body : String)
  | unauthorized
  | serverError
deriving Repr, DecidableEq

/-- Modelled from the spec: the caller-visible result of an intercepted
request. -/
inductive RequestResult
  | ok (body : String)
  | serverFailure
  | authFailure
  | retryExhausted
deriving Repr, DecidableEq

/-- Modelled from the spec: the 401 interceptor.  `respond i` is the
backend response to the i-th issue of the original request and `o` the
outcome the refresh network call would have.  On an authorization-failure
response the interceptor calls ensureFreshToken; on refresh success it
updates the session and re-issues the original request exactly once,
returning that second response as the final result (a second
authorization failure is RequestRetryExhausted — never retried again); on
refresh failure it clears the session and propagates the authorization
failure.  The returned Nat counts how many times the request was issued. -/
def interceptRequest (st : ManagerState) (respond : Nat → HttpResponse)
    (o : RefreshOutcome) : RequestResult × ManagerState × Nat :=
  match respond 0 with
  | .ok b => (RequestResult.ok b, st, 1)
  | .serverError => (RequestResult.serverFailure, st, 1)
  | .unauthorized =>
    match o with
    | .success a r u =>
      let st1 := setSession st a r u
      match respond 1 with
      | .ok b => (RequestResult.ok b, st1, 2)
      | .serverError => (RequestResult.serverFailure, st1, 2)
      | .unauthorized => (RequestResult.retryExhausted, st1, 2)
    | .failure _ => (RequestResult.authFailure, clearSession st, 1)

end EcommerceAdmin

namespace EcommerceAdmin

/-! ### Theorems for the directly embedded modules -/

/-- C9: at module initialization of the environment config, an absent or
invalid VITE_API_URL makes initialization throw an error with message
"Invalid environment variables" and no env value is produced; a valid
value is exported unchanged. -/
theorem env_init_validates_url (validUrl : String → Bool) (e : RawEnv) :
    (e.VITE_API_URL = none →
      parseEnv validUrl e = Except.error "Invalid environment variables") ∧
    (∀ s, e.VITE_API_URL = some s → validUrl s = false →
      parseEnv validUrl e = Except.error "Invalid environment variables") ∧
    (∀ s, e.VITE_API_URL = some s → validUrl s = true →
      parseEnv validUrl e = Except.ok s) := by
  refine ⟨?_, ?_, ?_⟩
  · intro h; simp [parseEnv, h]
  · intro s hs hv; simp [parseEnv, hs, hv]
  · intro s hs hv; simp [parseEnv, hs, hv]

/-- Witness for C9 at concrete inputs: an absent variable, an invalid
value and a valid value, under the validator accepting exactly the string
"http://localhost:3000". -/
theorem env_init_validates_url_witness :
    parseEnv (fun s => s = "http://localhost:3000") ⟨none⟩ =
      Except.error "Invalid environment variables" ∧
    parseEnv (fun s => s = "http://localhost:3000") ⟨some "nope"⟩ =
      Except.error "Invalid environment variables" ∧
    parseEnv (fun s => s = "http://localhost:3000") ⟨some "http://localhost:3000"⟩ =
      Except.ok "http://localhost:3000" :=
  ⟨(env_init_validates_url (fun s => s = "http://localhost:3000") ⟨none⟩).1 rfl,
   (env_init_validates_url (fun s => s = "http://localhost:3000") ⟨some "nope"⟩).2.1
      "nope" rfl (by decide),
   (env_init_validates_url (fun s => s = "http://localhost:3000")
      ⟨some "http://localhost:3000"⟩).2.2 "http://localhost:3000" rfl (by decide)⟩

/-- C10: the shared query client is constructed with default options
retry = 2 (so a failing query is retried twice, not once),
staleTime = 30000 ms, gcTime = 300000 ms, refetchOnWindowFocus = true and
refetchOnReconnect = true. -/
theorem queryClient_default_options :
    queryClientDefaults.retry = 2 ∧
    queryClientDefaults.staleTime = 30000 ∧
    queryClientDefaults.gcTime = 300000 ∧
    queryClientDefaults.refetchOnWindowFocus = true ∧
    queryClientDefaults.refetchOnReconnect = true ∧
    retriesOfFailingQuery queryClientDefaults = 2 ∧
    retriesOfFailingQuery queryClientDefaults ≠ 1 := by
  refine ⟨rfl, rfl, rfl, rfl, rfl, rfl, by decide⟩

/-- C2: getAccessToken returns the current access token when one is set
and absent otherwise, and has no side effect: the session and refresh
state are unchanged by the call.  It is a total pure function, hence
non-blocking in the event-loop model. -/
theorem getAccessToken_pure_and_correct (st : ManagerState) :
    (getAccessToken st).2 = st ∧
    (getAccessToken st).1 = st.session.accessToken := by
  exact ⟨rfl, rfl⟩

/-! ### Refresh round lemmas -/

/-- While a refresh is pending, further ensureFreshToken callers only
register as waiters: no network call is issued, nobody resolves, and the
waiter list grows in arrival order. -/
lemma run_callEnsure_followers (cs : List CallerId) (w : World) (ws : List CallerId)
    (h : w.st.pending = some ws) :
    run w (cs.map Event.callEnsure) =
      { w with st := { w.st with pending := some (ws ++ cs) } } := by
  induction cs generalizing w ws with
  | nil =>
    rw [List.append_nil, ← h]
    rfl
  | cons c cs ih =>
    have hstep : step w (Event.callEnsure c) =
        { w with st := { w.st with pending := some (ws ++ [c]) } } := by
      simp [step, h]
    have h1 : ({ w with st := { w.st with pending := some (ws ++ [c]) } } : World).st.pending
        = some (ws ++ [c]) := rfl
    calc run w ((c :: cs).map Event.callEnsure)
        = run (step w (Event.callEnsure c)) (cs.map Event.callEnsure) := rfl
      _ = run { w with st := { w.st with pending := some (ws ++ [c]) } }
            (cs.map Event.callEnsure) := by rw [hstep]
      _ = { w with st := { w.st with pending := some ((ws ++ [c]) ++ cs) } } :=
            ih _ _ h1
      _ = { w with st := { w.st with pending := some (ws ++ (c :: cs)) } } := by
            rw [List.append_assoc]
            rfl

/-- A full round from an idle state: the first caller becomes leader and
issues the one network call; the rest follow; at the end of the calls the
waiter list holds every caller in order. -/
lemma run_calls_from_idle (w : World) (c : CallerId) (cs : List CallerId)
    (h : w.st.pending = none) :
    run w ((c :: cs).map Event.callEnsure) =
      { w with
        st := { w.st with pending := some (c :: cs) }
        networkCalls := w.networkCalls + 1 } := by
  have hstep : step w (Event.callEnsure c) =
      { w with
        st := { w.st with pending := some [c] }
        networkCalls := w.networkCalls + 1 } := by
    simp [step, h]
  calc run w ((c :: cs).map Event.callEnsure)
      = run (step w (Event.callEnsure c)) (cs.map Event.callEnsure) := rfl
    _ = run { w with
              st := { w.st with pending := some [c] }
              networkCalls := w.networkCalls + 1 } (cs.map Event.callEnsure) := by
          rw [hstep]
    _ = { w with
          st := { w.st with pending := some ([c] ++ cs) }
          networkCalls := w.networkCalls + 1 } :=
          run_callEnsure_followers cs _ [c] rfl
    _ = { w with
          st := { w.st with pending := some (c :: cs) }
          networkCalls := w.networkCalls + 1 } := rfl

/-- A successful refresh round from an idle state, fully computed. -/
lemma run_round_success (w : World) (c : CallerId) (cs : List CallerId)
    (a r : String) (u : SessionUser) (h : w.st.pending = none) :
    run w (roundEvents (c :: cs) (RefreshOutcome.success a r u)) =
      { st := ⟨⟨some a, some r, some u⟩, none⟩
        networkCalls := w.networkCalls + 1
        resolved :=
          w.resolved ++ (c :: cs).map (fun x => (x, EnsureResult.ok a)) } := by
  have hsplit : run w (roundEvents (c :: cs) (RefreshOutcome.success a r u)) =
      step (run w ((c :: cs).map Event.callEnsure))
        (Event.resolve (RefreshOutcome.success a r u)) := by
    simp [roundEvents, run, List.foldl_append]
  rw [hsplit, run_calls_from_idle w c cs h]
  rfl

/-- A failed refresh round from an idle state, fully computed. -/
lemma run_round_failure (w : World) (c : CallerId) (cs : List CallerId)
    (e : RefreshError) (h : w.st.pending = none) :
    run w (roundEvents (c :: cs) (RefreshOutcome.failure e)) =
      { st := ⟨emptySession, none⟩
        networkCalls := w.networkCalls + 1
        resolved :=
          w.resolved ++ (c :: cs).map (fun x => (x, EnsureResult.err e)) } := by
  have hsplit : run w (roundEvents (c :: cs) (RefreshOutcome.failure e)) =
      step (run w ((c :: cs).map Event.callEnsure))
        (Event.resolve (RefreshOutcome.failure e)) := by
    simp [roundEvents, run, List.foldl_append]
  rw [hsplit, run_calls_from_idle w c cs h]
  rfl

/-! ### Claim theorems about the refresh round model -/

/-- C1: for N ≥ 1 concurrent callers of ensureFreshToken starting while
no refresh is pending, exactly one network refresh call is issued during
the round, and every one of the N callers resolves with the same outcome
(the round outcome). -/
theorem ensureFreshToken_single_flight (w : World) (c : CallerId) (cs : List CallerId)
    (o : RefreshOutcome) (h : w.st.pending = none) :
    (run w (roundEvents (c :: cs) o)).networkCalls = w.networkCalls + 1 ∧
    (run w (roundEvents (c :: cs) o)).resolved =
      w.resolved ++ (c :: cs).map (fun x => (x, outcomeResult o)) := by
  cases o with
  | success a r u =>
    rw [run_round_success w c cs a r u h]
    exact ⟨rfl, rfl⟩
  | failure e =>
    rw [run_round_failure w c cs e h]
    exact ⟨rfl, rfl⟩

/-- Witness for C1: three concurrent callers from the initial state, with
the round failing on the network; one network call, three identical
resolutions. -/
theorem ensureFreshToken_single_flight_witness :
    (run ⟨initState, 0, []⟩
        (roundEvents [0, 1, 2] (RefreshOutcome.failure RefreshError.networkFailure))).networkCalls
      = 0 + 1 ∧
    (run ⟨initState, 0, []⟩
        (roundEvents [0, 1, 2] (RefreshOutcome.failure RefreshError.networkFailure))).resolved
      = [] ++ [0, 1, 2].map
          (fun x => (x, outcomeResult (RefreshOutcome.failure RefreshError.networkFailure))) :=
  ensureFreshToken_single_flight ⟨initState, 0, []⟩ 0 [1, 2]
    (RefreshOutcome.failure RefreshError.networkFailure) rfl

/-- C3: when the leader refresh of a round succeeds with a new access
token, the session holds the new token pair and user (it was updated via
setSession in the resolve step), the leader and every follower resolve
with the new access token, and a subsequent getAccessToken returns the
new token and not any different token held before the refresh. -/
theorem refresh_success_new_token (w : World) (c : CallerId) (cs : List CallerId)
    (a r : String) (u : SessionUser) (h : w.st.pending = none) :
    (run w (roundEvents (c :: cs) (RefreshOutcome.success a r u))).st.session =
      ⟨some a, some r, some u⟩ ∧
    (getAccessToken
        (run w (roundEvents (c :: cs) (RefreshOutcome.success a r u))).st).1 = some a ∧
    (run w (roundEvents (c :: cs) (RefreshOutcome.success a r u))).resolved =
      w.resolved ++ (c :: cs).map (fun x => (x, EnsureResult.ok a)) ∧
    (∀ old, w.st.session.accessToken = some old → old ≠ a →
      (getAccessToken
          (run w (roundEvents (c :: cs) (RefreshOutcome.success a r u))).st).1 ≠ some old) := by
  rw [run_round_success w c cs a r u h]
  refine ⟨rfl, rfl, rfl, ?_⟩
  intro old _ hne heq
  exact hne (Option.some_injective String heq).symm

/-- Witness for C3: a leader and one follower refresh from a state whose
session held the old token "oldA"; afterwards the token is "newA". -/
theorem refresh_success_new_token_witness :
    (run ⟨⟨⟨some "oldA", some "oldR", some ⟨"u1", "ADMIN"⟩⟩, none⟩, 0, []⟩
        (roundEvents [0, 1]
          (RefreshOutcome.success "newA" "newR" ⟨"u1", "ADMIN"⟩))).st.session =
      ⟨some "newA", some "newR", some ⟨"u1", "ADMIN"⟩⟩ ∧
    (getAccessToken
        (run ⟨⟨⟨some "oldA", some "oldR", some ⟨"u1", "ADMIN"⟩⟩, none⟩, 0, []⟩
          (roundEvents [0, 1]
            (RefreshOutcome.success "newA" "newR" ⟨"u1", "ADMIN"⟩))).st).1 = some "newA" ∧
    (run ⟨⟨⟨some "oldA", some "oldR", some ⟨"u1", "ADMIN"⟩⟩, none⟩, 0, []⟩
        (roundEvents [0, 1]
          (RefreshOutcome.success "newA" "newR" ⟨"u1", "ADMIN"⟩))).resolved =
      [] ++ [0, 1].map (fun x => (x, EnsureResult.ok "newA")) ∧
    (∀ old,
      (⟨⟨⟨some "oldA", some "oldR", some ⟨"u1", "ADMIN"⟩⟩, none⟩, 0, []⟩ :
          World).st.session.accessToken = some old → old ≠ "newA" →
      (getAccessToken
          (run ⟨⟨⟨some "oldA", some "oldR", some ⟨"u1", "ADMIN"⟩⟩, none⟩, 0, []⟩
            (roundEvents [0, 1]
              (RefreshOutcome.success "newA" "newR" ⟨"u1", "ADMIN"⟩))).st).1 ≠ some old) :=
  refresh_success_new_token
    ⟨⟨⟨some "oldA", some "oldR", some ⟨"u1", "ADMIN"⟩⟩, none⟩, 0, []⟩
    0 [1] "newA" "newR" ⟨"u1", "ADMIN"⟩ rfl

/-- C4: when the leader refresh of a round fails, the session is fully
cleared: all three session fields are absent, getAccessToken returns
absent and isAuthenticated is false (and every caller resolves with the
same failure). -/
theorem refresh_failure_clears_session (w : World) (c : CallerId) (cs : List CallerId)
    (e : RefreshError) (h : w.st.pending = none) :
    (run w (roundEvents (c :: cs) (RefreshOutcome.failure e))).st.session.accessToken = none ∧
    (run w (roundEvents (c :: cs) (RefreshOutcome.failure e))).st.session.refreshToken = none ∧
    (run w (roundEvents (c :: cs) (RefreshOutcome.failure e))).st.session.user = none ∧
    (getAccessToken
        (run w (roundEvents (c :: cs) (RefreshOutcome.failure e))).st).1 = none ∧
    isAuthenticated (run w (roundEvents (c :: cs) (RefreshOutcome.failure e))).st = false ∧
    (run w (roundEvents (c :: cs) (RefreshOutcome.failure e))).resolved =
      w.resolved ++ (c :: cs).map (fun x => (x, EnsureResult.err e)) := by
  rw [run_round_failure w c cs e h]
  exact ⟨rfl, rfl, rfl, rfl, rfl, rfl⟩

/-- Witness for C4: a refresh round failing with an expired refresh token
from a fully authenticated state clears everything. -/
theorem refresh_failure_clears_session_witness :
    (run ⟨⟨⟨some "oldA", some "oldR", some ⟨"u1", "ADMIN"⟩⟩, none⟩, 0, []⟩
        (roundEvents [0] (RefreshOutcome.failure
          RefreshError.expiredRefreshToken))).st.session.accessToken = none ∧
    (run ⟨⟨⟨some "oldA", some "oldR", some ⟨"u1", "ADMIN"⟩⟩, none⟩, 0, []⟩
        (roundEvents [0] (RefreshOutcome.failure
          RefreshError.expiredRefreshToken))).st.session.refreshToken = none ∧
    (run ⟨⟨⟨some "oldA", some "oldR", some ⟨"u1", "ADMIN"⟩⟩, none⟩, 0, []⟩
        (roundEvents [0] (RefreshOutcome.failure
          RefreshError.expiredRefreshToken))).st.session.user = none ∧
    (getAccessToken
        (run ⟨⟨⟨some "oldA", some "oldR", some ⟨"u1", "ADMIN"⟩⟩, none⟩, 0, []⟩
          (roundEvents [0] (RefreshOutcome.failure
            RefreshError.expiredRefreshToken))).st).1 = none ∧
    isAuthenticated
        (run ⟨⟨⟨some "oldA", some "oldR", some ⟨"u1", "ADMIN"⟩⟩, none⟩, 0, []⟩
          (roundEvents [0] (RefreshOutcome.failure
            RefreshError.expiredRefreshToken))).st = false ∧
    (run ⟨⟨⟨some "oldA", some "oldR", some ⟨"u1", "ADMIN"⟩⟩, none⟩, 0, []⟩
        (roundEvents [0] (RefreshOutcome.failure
          RefreshError.expiredRefreshToken))).resolved =
      [] ++ [0].map (fun x => (x, EnsureResult.err RefreshError.expiredRefreshToken)) :=
  refresh_failure_clears_session
    ⟨⟨⟨some "oldA", some "oldR", some ⟨"u1", "ADMIN"⟩⟩, none⟩, 0, []⟩
    0 [] RefreshError.expiredRefreshToken rfl

/-- C8: after a refresh round resolves (success or failure) the pending
marker is cleared, and the next ensureFreshToken caller becomes a new
leader: it issues its own new network refresh call; in particular after a
round failing with an expired refresh token all session fields are
absent. -/
theorem round_clears_pending_next_leader (w : World) (c cNext : CallerId)
    (cs : List CallerId) (o : RefreshOutcome) (h : w.st.pending = none) :
    (run w (roundEvents (c :: cs) o)).st.pending = none ∧
    (step (run w (roundEvents (c :: cs) o)) (Event.callEnsure cNext)).networkCalls =
      (run w (roundEvents (c :: cs) o)).networkCalls + 1 ∧
    (step (run w (roundEvents (c :: cs) o)) (Event.callEnsure cNext)).st.pending =
      some [cNext] ∧
    (o = RefreshOutcome.failure RefreshError.expiredRefreshToken →
      (run w (roundEvents (c :: cs) o)).st.session.accessToken = none ∧
      (run w (roundEvents (c :: cs) o)).st.session.refreshToken = none ∧
      (run w (roundEvents (c :: cs) o)).st.session.user = none) := by
  cases o with
  | success a r u =>
    rw [run_round_success w c cs a r u h]
    exact ⟨rfl, rfl, rfl, by intro hx; cases hx⟩
  | failure e =>
    rw [run_round_failure w c cs e h]
    exact ⟨rfl, rfl, rfl, fun _ => ⟨rfl, rfl, rfl⟩⟩

/-- Witness for C8: a round failing with an expired refresh token from
the initial state; afterwards caller 7 becomes a fresh leader issuing a
second network call. -/
theorem round_clears_pending_next_leader_witness :
    (run ⟨initState, 0, []⟩
        (roundEvents [0, 1]
          (RefreshOutcome.failure RefreshError.expiredRefreshToken))).st.pending = none ∧
    (step (run ⟨initState, 0, []⟩
          (roundEvents [0, 1]
            (RefreshOutcome.failure RefreshError.expiredRefreshToken)))
        (Event.callEnsure 7)).networkCalls =
      (run ⟨initState, 0, []⟩
          (roundEvents [0, 1]
            (RefreshOutcome.failure RefreshError.expiredRefreshToken))).networkCalls + 1 ∧
    (step (run ⟨initState, 0, []⟩
          (roundEvents [0, 1]
            (RefreshOutcome.failure RefreshError.expiredRefreshToken)))
        (Event.callEnsure 7)).st.pending = some [7] ∧
    (RefreshOutcome.failure RefreshError.expiredRefreshToken =
        RefreshOutcome.failure RefreshError.expiredRefreshToken →
      (run ⟨initState, 0, []⟩
          (roundEvents [0, 1]
            (RefreshOutcome.failure
              RefreshError.expiredRefreshToken))).st.session.accessToken = none ∧
      (run ⟨initState, 0, []⟩
          (roundEvents [0, 1]
            (RefreshOutcome.failure
              RefreshError.expiredRefreshToken))).st.session.refreshToken = none ∧
      (run ⟨initState, 0, []⟩
          (roundEvents [0, 1]
            (RefreshOutcome.failure
              RefreshError.expiredRefreshToken))).st.session.user = none) :=
  round_clears_pending_next_leader ⟨initState, 0, []⟩ 0 7 [1]
    (RefreshOutcome.failure RefreshError.expiredRefreshToken) rfl

/-! ### Login and interceptor claim theorems -/

/-- C5: a login whose credentials are accepted but whose returned user
role is not the administrative role surfaces an InsufficientRole error
and stores nothing from that login (the manager state is exactly the
state before the call, so no access token, refresh token or user of that
login remains set); in particular when logging in from the unauthenticated
state the session afterwards is the cleared session. -/
theorem login_non_admin_cleared (st : ManagerState) (a r : String) (u : SessionUser)
    (h : u.role ≠ ADMIN_ROLE) :
    (login st (LoginResponse.granted a r u)).1 =
      Except.error AuthError.insufficientRole ∧
    (login st (LoginResponse.granted a r u)).2 = st ∧
    (st.session = emptySession →
      (login st (LoginResponse.granted a r u)).2.session = emptySession) := by
  refine ⟨?_, ?_, ?_⟩ <;> simp [login, h]

/-- Witness for C5: a CUSTOMER-role user logging in from the initial
(unauthenticated) state. -/
theorem login_non_admin_cleared_witness :
    (login initState (LoginResponse.granted "at" "rt" ⟨"u9", "CUSTOMER"⟩)).1 =
      Except.error AuthError.insufficientRole ∧
    (login initState (LoginResponse.granted "at" "rt" ⟨"u9", "CUSTOMER"⟩)).2 =
      initState ∧
    (initState.session = emptySession →
      (login initState
        (LoginResponse.granted "at" "rt" ⟨"u9", "CUSTOMER"⟩)).2.session = emptySession) :=
  login_non_admin_cleared initState "at" "rt" ⟨"u9", "CUSTOMER"⟩ (by decide)

/-- C7: a login attempt failing with InvalidCredentials or
InsufficientRole leaves a previously established unrelated session
untouched: all three stored session fields are unchanged. -/
theorem login_failure_preserves_session (st : ManagerState) (resp : LoginResponse)
    (h : (login st resp).1 = Except.error AuthError.invalidCredentials ∨
         (login st resp).1 = Except.error AuthError.insufficientRole) :
    (login st resp).2.session.accessToken = st.session.accessToken ∧
    (login st resp).2.session.refreshToken = st.session.refreshToken ∧
    (login st resp).2.session.user = st.session.user := by
  cases resp with
  | rejected => exact ⟨rfl, rfl, rfl⟩
  | granted a r u =>
    by_cases hr : u.role = ADMIN_ROLE
    · exfalso
      rcases h with h | h <;> simp [login, hr] at h
    · simp [login, hr]

/-- Witness for C7: rejected credentials while a full admin session is
established; the session fields are untouched. -/
theorem login_failure_preserves_session_witness :
    (login ⟨⟨some "A", some "R", some ⟨"u1", "ADMIN"⟩⟩, none⟩
        LoginResponse.rejected).2.session.accessToken =
      (⟨⟨some "A", some "R", some ⟨"u1", "ADMIN"⟩⟩, none⟩ :
        ManagerState).session.accessToken ∧
    (login ⟨⟨some "A", some "R", some ⟨"u1", "ADMIN"⟩⟩, none⟩
        LoginResponse.rejected).2.session.refreshToken =
      (⟨⟨some "A", some "R", some ⟨"u1", "ADMIN"⟩⟩, none⟩ :
        ManagerState).session.refreshToken ∧
    (login ⟨⟨some "A", some "R", some ⟨"u1", "ADMIN"⟩⟩, none⟩
        LoginResponse.rejected).2.session.user =
      (⟨⟨some "A", some "R", some ⟨"u1", "ADMIN"⟩⟩, none⟩ :
        ManagerState).session.user :=
  login_failure_preserves_session
    ⟨⟨some "A", some "R", some ⟨"u1", "ADMIN"⟩⟩, none⟩
    LoginResponse.rejected (Or.inl rfl)

/-- C6: the interceptor issues the original request at most twice (the
original send plus at most one retry); when the first send fails with an
authorization error and the refresh succeeds, the request is retried
exactly once; and when that single retry also fails with an authorization
error the result is RequestRetryExhausted with still only two sends — it
is never retried again. -/
theorem interceptor_retry_at_most_once (st : ManagerState)
    (respond : Nat → HttpResponse) (o : RefreshOutcome) :
    (interceptRequest st respond o).2.2 ≤ 2 ∧
    (respond 0 = HttpResponse.unauthorized →
      ∀ a r u, o = RefreshOutcome.success a r u →
        (interceptRequest st respond o).2.2 = 2) ∧
    (respond 0 = HttpResponse.unauthorized →
      respond 1 = HttpResponse.unauthorized →
      ∀ a r u, o = RefreshOutcome.success a r u →
        (interceptRequest st respond o).1 = RequestResult.retryExhausted ∧
        (interceptRequest st respond o).2.2 = 2) := by
  cases h0 : respond 0 with
  | ok b => simp [interceptRequest, h0]
  | serverError => simp [interceptRequest, h0]
  | unauthorized =>
    cases o with
    | failure e => simp [interceptRequest, h0]
    | success a r u =>
      cases h1 : respond 1 with
      | ok b => simp [interceptRequest, h0, h1]
      | serverError => simp [interceptRequest, h0, h1]
      | unauthorized => simp [interceptRequest, h0, h1]

/-- Witness for C6: a backend that persistently answers with an
authorization failure, and a refresh that succeeds: the request is sent
exactly twice and the result is RequestRetryExhausted. -/
theorem interceptor_retry_at_most_once_witness :
    (interceptRequest initState (fun _ => HttpResponse.unauthorized)
        (RefreshOutcome.success "a2" "r2" ⟨"u1", "ADMIN"⟩)).1 =
      RequestResult.retryExhausted ∧
    (interceptRequest initState (fun _ => HttpResponse.unauthorized)
        (RefreshOutcome.success "a2" "r2" ⟨"u1", "ADMIN"⟩)).2.2 = 2 :=
  (interceptor_retry_at_most_once initState (fun _ => HttpResponse.unauthorized)
      (RefreshOutcome.success "a2" "r2" ⟨"u1", "ADMIN"⟩)).2.2
    rfl rfl "a2" "r2" ⟨"u1", "ADMIN"⟩ rfl

end EcommerceAdmin
